import Mathlib

/-!
Shallow embedding of the economic core of `src/server.py` (a Flask + Redis
game backend): accounts, inventory stacks, equipment instances, the
enhancement engine and the auction house.  The Redis store is modelled as a
record of finite maps; each HTTP handler becomes a pure function from the
store (plus its request inputs and the outcomes of its random draws) to a
response paired with the new store.

The helper `set_user_field` is called throughout `server.py` but is defined
nowhere in the repository; handlers that call it are parametrised by how
that name resolves (`SUF.srcUndefined`: a Python `NameError` is raised at
the call; `SUF.specModelled`: the account-field write the spec describes).
-/

namespace Server

/-- A user hash (`user:{username}`): the fields the economic core touches.
`gold`, `level` and `exp` are read back through `int(...)` by `get_user`;
`banned` stays a string. -/
structure Account where
  gold : Int
  level : Int
  exp : Int
  banned : String
  deriving Repr, DecidableEq

/-- An equipment hash (`equip:{username}:{uid}`).  `get_equipment` int-converts
the seven numeric fields; `locked` records presence of the `locked = "1"`
hash field set by auction listing. -/
structure Equipment where
  enhance : Int
  atk : Int
  def_ : Int
  hp : Int
  spd : Int
  crit : Int
  crit_dmg : Int
  locked : Bool
  deriving Repr, DecidableEq

/-- An auction hash (`auction:{aid}`).  `buyout_price` is stored as `""`
(here `none`) when the request supplied no buyout or a falsy `0`. -/
structure Auction where
  seller : String
  typ : String
  item_id : String
  uid : String
  qty : Int
  start_price : Int
  current_price : Int
  current_bidder : String
  buyout_price : Option Int
  status : String
  deriving Repr, DecidableEq

/-- Pointwise update of a finite map represented as a function. -/
def upd {α β : Type} [DecidableEq α] (f : α → β) (k : α) (v : β) : α → β :=
  fun x => if x = k then v else f x

/-- Pointwise update of a two-key map. -/
def upd2 {α β γ : Type} [DecidableEq α] [DecidableEq β]
    (f : α → β → γ) (a : α) (b : β) (v : γ) : α → β → γ :=
  fun x y => if x = a ∧ y = b then v else f x y

/-- The Redis keyspace restricted to what the economic core reads/writes:
user hashes, equipment hashes, equip-slot hashes (as association lists, so
that `hgetall(...).values()` can be enumerated), role-stat hashes, item
inventories, enhancement-guard counters, auction hashes, the
`auction:open` index and the `auction:next_id` counter. -/
structure Store where
  users : String → Option Account
  equips : String → String → Option Equipment
  slots : String → List (String × String)
  roles : String → String → Int
  inventory : String → String → Option Int
  guards : String → Option Int
  auctions : Int → Option Auction
  openIndex : List Int
  nextAuctionId : Int

/-- `HINCRBY`: a missing field counts as 0 and the result is stored. -/
def hincr (inv : String → String → Option Int) (u k : String) (d : Int) :
    String → String → Option Int :=
  upd2 inv u k (some ((inv u k).getD 0 + d))

/-- `HSET` on an association-list hash. -/
def hsetL (l : List (String × String)) (k v : String) : List (String × String) :=
  if l.any (fun p => p.1 == k) then
    l.map (fun p => if p.1 == k then (k, v) else p)
  else l ++ [(k, v)]

/-- Handler outcome: a success JSON, an HTTP error response, or an uncaught
Python exception (`NameError` from an undefined name, `TypeError` from
subscripting `None`, any other driver error). -/
inductive Resp where
  | ok
  | httpErr (status : Nat) (msg : String)
  | nameError
  | typeError
  | otherError
  deriving Repr, DecidableEq

/-- How the (nowhere-defined) name `set_user_field` resolves when a handler
calls it. -/
inductive SUF where
  | srcUndefined
  | specModelled
  deriving Repr, DecidableEq

/-- Write one field of a user hash to an integer value, by field name. -/
def setField (a : Account) : String → Int → Account
  | "gold", v => { a with gold := v }
  | "level", v => { a with level := v }
  | "exp", v => { a with exp := v }
  | "banned", v => { a with banned := toString v }
  | _, _ => a

/-- Modelled from the spec: `set_user_field` is called by `server.py` but its
definition is missing from the repository; the spec's Account Ledger (§4.1,
§3 "mutated only through credit/debit") makes each call site an account-field
write of the freshly computed value, so the modelled function writes the
named field of the named user's hash. -/
def set_user_field_spec (s : Store) (username field : String) (v : Int) : Store :=
  match s.users username with
  | none => s
  | some a => { s with users := upd s.users username (some (setField a field v)) }

/-- Resolve a call to `set_user_field`: `none` means the call raised
`NameError` (the name is undefined in `server.py`'s global namespace). -/
def sufApply : SUF → Store → String → String → Int → Option Store
  | .srcUndefined, _, _, _, _ => none
  | .specModelled, s, u, f, v => some (set_user_field_spec s u f v)

/-- The shop catalogue `SHOP_ITEMS` (id, price). -/
def SHOP_ITEMS : List (String × Int) :=
  [("potion_small", 20), ("refine_stone", 50), ("skill_shard", 30)]

/-- `POST /shop/buy` (`api_shop_buy`): look up the item, compute
`cost = price * qty`, reject when `player["gold"] < cost`, spend the gold via
`set_user_field` and credit the stack with `HINCRBY`. -/
def api_shop_buy (impl : SUF) (s : Store) (username item_id : String)
    (qty : Int) : Resp × Store :=
  match SHOP_ITEMS.lookup item_id with
  | none => (.httpErr 404 "物品不存在", s)
  | some price =>
    let cost := price * qty
    match s.users username with
    | none => (.typeError, s)
    | some player =>
      if player.gold < cost then (.httpErr 400 "金幣不足", s)
      else
        match sufApply impl s username "gold" (player.gold - cost) with
        | none => (.nameError, s)
        | some s1 => (.ok, { s1 with inventory := hincr s1.inventory username item_id qty })

/-- `POST /auction/bid` (`api_auction_bid`): reject when the auction is
missing, not `open`, owned by the bidder, the amount is not above
`current_price`, or the bidder's gold is below the amount; otherwise record
the new `current_price` and `current_bidder`.  No gold moves. -/
def api_auction_bid (s : Store) (username : String) (aid bid_amount : Int) :
    Resp × Store :=
  match s.auctions aid with
  | none => (.httpErr 404 "拍賣不存在", s)
  | some a =>
    if a.status ≠ "open" then (.httpErr 400 "拍賣已結束", s)
    else if a.seller = username then (.httpErr 400 "不能對自己的拍賣出價", s)
    else if bid_amount ≤ a.current_price then (.httpErr 400 "出價需高於目前價格", s)
    else
      match s.users username with
      | none => (.typeError, s)
      | some user =>
        if user.gold < bid_amount then (.httpErr 400 "金幣不足", s)
        else
          let a1 := { a with current_price := bid_amount, current_bidder := username }
          (.ok, { s with auctions := upd s.auctions aid (some a1) })

/-- `int(a["buyout_price"] or a["current_price"])`: the settlement price of a
buy-now — the stored buyout when the field is non-empty, else the current
price. -/
def priceOf (a : Auction) : Int :=
  match a.buyout_price with
  | some b => b
  | none => a.current_price

/-- Mark an auction sold and drop it from the `auction:open` index. -/
def finishSold (s : Store) (aid : Int) (a : Auction) : Store :=
  { s with auctions := upd s.auctions aid (some { a with status := "sold" }),
           openIndex := s.openIndex.filter (fun x => x ≠ aid) }

/-- `POST /auction/buy` (`api_auction_buy`): validity checks, then
`price = int(a["buyout_price"] or a["current_price"])`, the funds check, the
two `set_user_field` gold writes (buyer debit first, evaluated against the
pre-fetched seller dict), the item/equipment hand-over, and the
`open → sold` transition. -/
def api_auction_buy (impl : SUF) (s : Store) (username : String) (aid : Int) :
    Resp × Store :=
  match s.auctions aid with
  | none => (.httpErr 404 "拍賣不存在", s)
  | some a =>
    if a.status ≠ "open" then (.httpErr 400 "拍賣已結束", s)
    else if a.seller = username then (.httpErr 400 "不能購買自己的拍賣", s)
    else
      let price := priceOf a
      match s.users username with
      | none => (.typeError, s)
      | some buyer =>
        let sellerOpt := s.users a.seller
        if buyer.gold < price then (.httpErr 400 "金幣不足", s)
        else
          match sufApply impl s username "gold" (buyer.gold - price) with
          | none => (.nameError, s)
          | some s1 =>
            match sellerOpt with
            | none => (.typeError, s1)
            | some seller =>
              match sufApply impl s1 a.seller "gold" (seller.gold + price) with
              | none => (.nameError, s1)
              | some s2 =>
                if a.typ = "item" then
                  (.ok, finishSold
                    { s2 with inventory := hincr s2.inventory username a.item_id a.qty }
                    aid a)
                else
                  match s2.equips a.seller a.uid with
                  | none => (.otherError, s2)
                  | some eq =>
                    let moved := upd2 (upd2 s2.equips a.seller a.uid none)
                        username a.uid (some { eq with locked := false })
                    (.ok, finishSold { s2 with equips := moved } aid a)

/-- `HDEL ... locked` on an equipment hash (no-op when the hash is absent). -/
def hdelLocked (eqs : String → String → Option Equipment) (u uid : String) :
    String → String → Option Equipment :=
  match eqs u uid with
  | some eq => upd2 eqs u uid (some { eq with locked := false })
  | none => eqs

/-- `POST /auction/cancel` (`api_auction_cancel`): only the seller or a root
token may cancel, only while `open`; the escrowed stack/instance goes back to
the seller, the auction hash is deleted and the listing leaves the open
index.  There is no check of `current_bidder`. -/
def api_auction_cancel (s : Store) (username : String) (is_root : Bool)
    (aid : Int) : Resp × Store :=
  match s.auctions aid with
  | none => (.httpErr 404 "拍賣不存在", s)
  | some a =>
    if username ≠ a.seller ∧ ¬ is_root then (.httpErr 403 "無權限取消", s)
    else if a.status ≠ "open" then (.httpErr 400 "拍賣已結束", s)
    else
      let s1 := if a.typ = "item"
        then { s with inventory := hincr s.inventory a.seller a.item_id a.qty }
        else { s with equips := hdelLocked s.equips a.seller a.uid }
      (.ok, { s1 with auctions := upd s1.auctions aid none,
                      openIndex := s1.openIndex.filter (fun x => x ≠ aid) })

/-- Shared tail of `api_auction_create`: allocate the next id, persist the
`open` listing, index it. -/
def createListing (s : Store) (username item_type item_id uid : String)
    (qty start_price : Int) (buyout_price : Option Int) : Resp × Store :=
  let aid := s.nextAuctionId + 1
  let a : Auction :=
    { seller := username, typ := item_type, item_id := item_id, uid := uid,
      qty := qty, start_price := start_price, current_price := start_price,
      current_bidder := "",
      buyout_price := match buyout_price with
        | some b => if b = 0 then none else some b
        | none => none,
      status := "open" }
  (.ok, { s with nextAuctionId := aid,
                 auctions := upd s.auctions aid (some a),
                 openIndex := aid :: s.openIndex })

/-- `POST /auction/create` (`api_auction_create`): `start_price` must be
positive; a stack listing debits the seller's inventory, an equipment listing
requires the instance to exist, not to occupy any equip slot, and sets its
`locked` field; then the listing is created `open`. -/
def api_auction_create (s : Store) (username item_type item_id uid : String)
    (qty start_price : Int) (buyout_price : Option Int) : Resp × Store :=
  if start_price ≤ 0 then (.httpErr 400 "起標價必須大於 0", s)
  else if item_type = "item" then
    match s.inventory username item_id with
    | none => (.httpErr 400 "物品不足", s)
    | some v =>
      if v < qty then (.httpErr 400 "物品不足", s)
      else createListing
        { s with inventory := hincr s.inventory username item_id (-qty) }
        username item_type item_id uid qty start_price buyout_price
  else if item_type = "equip" then
    match s.equips username uid with
    | none => (.httpErr 404 "裝備不存在", s)
    | some eq =>
      if uid ∈ (s.slots username).map Prod.snd then
        (.httpErr 400 "裝備穿戴中，不能上架", s)
      else createListing
        { s with equips := upd2 s.equips username uid (some { eq with locked := true }) }
        username item_type item_id uid qty start_price buyout_price
  else (.httpErr 400 "未知物品類型", s)

/-- The five equip slots. -/
def EQUIP_SLOTS : List String := ["weapon", "head", "body", "hands", "feet"]

/-- `POST /equip/wear` (`api_equip_wear`): validate the slot name and that
the instance exists, then `HSET` the slot.  The handler performs no lock or
listing check of any kind. -/
def api_equip_wear (s : Store) (username uid slot : String) : Resp × Store :=
  if slot ∉ EQUIP_SLOTS then (.httpErr 400 "非法裝備欄位", s)
  else
    match s.equips username uid with
    | none => (.httpErr 404 "裝備不存在", s)
    | some _ =>
      (.ok, { s with slots := upd s.slots username (hsetL (s.slots username) slot uid) })

/-- Python `int()` on a rational: truncation toward zero. -/
def pyInt (q : ℚ) : Int :=
  if 0 ≤ q then ⌊q⌋ else ⌈q⌉

/-- `int(attr * growth)` for an integer attribute and rational growth. -/
def truncMul (x : Int) (g : ℚ) : Int :=
  pyInt ((x : ℚ) * g)

/-- `enhance_fail_result`: failure severity keyed on the pre-attempt level. -/
def enhance_fail_result (level : Int) : String × Int :=
  if level ≤ 5 then ("no_drop", 0)
  else if level ≤ 10 then ("drop", -1)
  else if level ≤ 15 then ("drop", -2)
  else if level ≤ 18 then ("reset", 0)
  else ("explode", 0)

/-- Response of `POST /equip/enhance`: the explosion outcome is a distinct
constructor, as the handler's `"explode": True` JSON is distinct from an
ordinary failure. -/
inductive EnhanceResp where
  | notFound
  | atMax
  | success (newLv : Int)
  | fail (newLv : Int)
  | explode
  deriving Repr, DecidableEq

/-- `POST /equip/enhance` (`api_equip_enhance`).  The two random draws are
explicit inputs: `success` is the outcome of `random.random() < rate`, and
the head of `rng` is the single `random.uniform(1.05, 1.12)` growth draw
made on the success branch.  `has_guard = r.get(guard_key(...))` is truthy
exactly when the key exists (Redis counters stringify to non-empty strings,
`"0"` included), and a truthy guard with `use_guard` and level ≥ 16 is
consumed by `DECR` before the outcome branches. -/
def api_equip_enhance (s : Store) (username uid : String) (use_guard : Bool)
    (success : Bool) (rng : List ℚ) : EnhanceResp × Store :=
  match s.equips username uid with
  | none => (.notFound, s)
  | some eq =>
    if 20 ≤ eq.enhance then (.atMax, s)
    else
      let guard_active := use_guard ∧ (s.guards username).isSome ∧ 16 ≤ eq.enhance
      let s1 := if guard_active then
          { s with guards := upd s.guards username (some ((s.guards username).getD 0 - 1)) }
        else s
      if success then
        let g := rng.headD 1
        let eq1 := { eq with
          enhance := eq.enhance + 1,
          atk := truncMul eq.atk g, def_ := truncMul eq.def_ g,
          hp := truncMul eq.hp g, spd := truncMul eq.spd g,
          crit := truncMul eq.crit g, crit_dmg := truncMul eq.crit_dmg g }
        (.success (eq.enhance + 1), { s1 with equips := upd2 s1.equips username uid (some eq1) })
      else
        let fr := enhance_fail_result eq.enhance
        let fr1 := if guard_active ∧ 16 ≤ eq.enhance ∧ (fr.1 = "explode" ∨ fr.1 = "reset")
          then (("drop" : String), (-1 : Int)) else fr
        if fr1.1 = "no_drop" then (.fail eq.enhance, s1)
        else if fr1.1 = "drop" then
          let nl := max 0 (eq.enhance + fr1.2)
          (.fail nl, { s1 with equips := upd2 s1.equips username uid (some { eq with enhance := nl }) })
        else if fr1.1 = "reset" then
          (.fail 0, { s1 with equips := upd2 s1.equips username uid (some { eq with enhance := 0 }) })
        else
          (.explode, { s1 with equips := upd2 s1.equips username uid none })

/-- Comparison definition following the claim's words (spec §4.3 step 3):
on success each of the six attributes is multiplied by an *independently
drawn* growth factor — each attribute gets its own draw from the stream —
and floored to an integer, and the level rises by one. -/
def enhanceSuccessSpec (eq : Equipment) (rng : List ℚ) : Equipment :=
  match rng with
  | g1 :: g2 :: g3 :: g4 :: g5 :: g6 :: _ =>
    { eq with
      enhance := eq.enhance + 1,
      atk := truncMul eq.atk g1, def_ := truncMul eq.def_ g2,
      hp := truncMul eq.hp g3, spd := truncMul eq.spd g4,
      crit := truncMul eq.crit g5, crit_dmg := truncMul eq.crit_dmg g6 }
  | _ => eq

/-- `level_exp_required`: EXP needed to leave the given level. -/
def level_exp_required (level : Int) : Int :=
  if level = 1 then 100
  else if level = 2 then 300
  else if level = 3 then 600
  else if level = 4 then 1000
  else level * level * 100

theorem level_exp_required_lb (level : Int) :
    100 ≤ level_exp_required level ∨ (level = 0 ∧ level_exp_required level = 0) := by
  unfold level_exp_required
  split_ifs with h1 h2 h3 h4
  · left; omega
  · left; omega
  · left; omega
  · left; omega
  · rcases eq_or_ne level 0 with h0 | h0
    · right; subst h0; norm_num
    · left
      have hsq : 1 ≤ level * level := by
        rcases lt_or_gt_of_ne h0 with h | h
        · nlinarith
        · nlinarith
      nlinarith

/-- The `while` loop of `add_exp`: while the accumulated EXP covers the
requirement, subtract it, raise the level and `HINCRBY` the four random
stat growths (one quadruple of `random.randint` draws per iteration) into
the role hash. -/
def addExpLoop (newExp level : Int) (rng : List (Int × Int × Int × Int))
    (rs : String → Int) : Int × Int × (String → Int) :=
  let required := level_exp_required level
  if h : required ≤ newExp then
    let g := rng.headD (2, 2, 10, 1)
    let rs1 := upd rs "atk" (rs "atk" + g.1)
    let rs2 := upd rs1 "def" (rs1 "def" + g.2.1)
    let rs3 := upd rs2 "hp" (rs2 "hp" + g.2.2.1)
    let rs4 := upd rs3 "spd" (rs3 "spd" + g.2.2.2)
    addExpLoop (newExp - required) (level + 1) rng.tail rs4
  else (newExp, level, rs)
termination_by newExp.toNat * 2 + (if level = 0 then 1 else 0)
decreasing_by
  rcases level_exp_required_lb level with h100 | ⟨h0, hR⟩ <;> split_ifs <;> omega

/-- Result of `add_exp`. -/
inductive AddExpResult where
  | noUser
  | nameError
  | ok (oldExp newExp level : Int)
  deriving Repr, DecidableEq

/-- `add_exp`: run the level-up loop over the role hash, then persist `exp`
and `level` through two `set_user_field` calls. -/
def add_exp (impl : SUF) (s : Store) (username : String) (exp_gain : Int)
    (rng : List (Int × Int × Int × Int)) : AddExpResult × Store :=
  match s.users username with
  | none => (.noUser, s)
  | some user =>
    let r0 := addExpLoop (user.exp + exp_gain) user.level rng (s.roles username)
    let s1 := { s with roles := upd s.roles username r0.2.2 }
    match sufApply impl s1 username "exp" r0.1 with
    | none => (.nameError, s1)
    | some s2 =>
      match sufApply impl s2 username "level" r0.2.1 with
      | none => (.nameError, s2)
      | some s3 => (.ok (user.exp) r0.1 r0.2.1, s3)

/-- `POST /admin/gold/<target>` (`api_admin_gold`): admin token required;
the new balance `max 0 (gold + amount)` is written via `set_user_field`. -/
def api_admin_gold (impl : SUF) (s : Store) (is_admin : Bool)
    (target : String) (amount : Int) : Resp × Store :=
  if ¬ is_admin then (.httpErr 403 "需要管理員權限", s)
  else
    match s.users target with
    | none => (.httpErr 404 "玩家不存在", s)
    | some user =>
      match sufApply impl s target "gold" (max 0 (user.gold + amount)) with
      | none => (.nameError, s)
      | some s1 => (.ok, s1)

/-- `POST /admin/ban/<target>` (`api_admin_ban`): admin token required; the
`banned` field is written via `set_user_field`. -/
def api_admin_ban (impl : SUF) (s : Store) (is_admin : Bool)
    (target : String) : Resp × Store :=
  if ¬ is_admin then (.httpErr 403 "需要管理員權限", s)
  else
    match sufApply impl s target "banned" 1 with
    | none => (.nameError, s)
    | some s1 => (.ok, s1)

/-- `POST /admin/unban/<target>` (`api_admin_unban`). -/
def api_admin_unban (impl : SUF) (s : Store) (is_admin : Bool)
    (target : String) : Resp × Store :=
  if ¬ is_admin then (.httpErr 403 "需要管理員權限", s)
  else
    match sufApply impl s target "banned" 0 with
    | none => (.nameError, s)
    | some s1 => (.ok, s1)

/-- Every function name defined (by a `def` statement, top level or nested)
anywhere in `server.py`, in source order. -/
def serverDefinedFunctions : List String :=
  ["now_iso", "sha256", "log_action", "user_key", "session_key",
   "session_meta_key", "failed_key", "lock_key", "get_user", "register_user",
   "increase_failed", "clear_failed", "is_locked", "lock_account",
   "unlock_account", "create_session", "destroy_session",
   "get_username_from_request", "admin_token_key", "root_token_key",
   "create_admin_token", "check_admin", "api_register", "api_login",
   "api_admin_login", "api_root_unlock", "api_status", "equip_key",
   "equip_slot_key", "guard_key", "generate_equipment", "roll",
   "get_equipment", "delete_equipment", "api_equip_wear", "api_equip_unwear",
   "enhance_fail_result", "api_equip_enhance", "api_root_give_guard",
   "role_key", "init_role", "level_exp_required", "add_exp",
   "compute_final_stats", "compute_power", "api_player_stats",
   "api_player_add_exp", "friends_key", "friend_requests_key",
   "api_friend_request", "api_friend_requests", "api_friend_accept",
   "api_friend_reject", "api_friend_remove", "api_friend_list",
   "api_friend_search", "api_friend_battle", "elo_key", "get_elo", "set_elo",
   "random_drop_rarity", "battle_drop", "fight_auto", "calc_elo", "expected",
   "api_battle_pvp", "api_get_elo", "update_power_rank", "update_elo_rank",
   "rollover_weekly_rank", "api_rank_power", "api_rank_elo",
   "api_rank_weekly", "api_weekly_rollover", "api_weekly_history",
   "api_rank_friends", "shop_item_key", "api_shop_list", "api_shop_buy",
   "api_shop_inventory", "auction_key", "next_auction_id",
   "list_open_auctions", "api_auction_list", "api_auction_create",
   "api_auction_bid", "api_auction_buy", "api_auction_cancel",
   "require_admin", "require_root", "api_admin_players", "api_admin_ban",
   "api_admin_unban", "api_admin_reset_password", "api_admin_gold",
   "api_admin_exp", "api_admin_equip_list", "api_admin_edit_equip",
   "api_admin_delete_equip", "api_admin_give_equip", "api_admin_auction_all",
   "api_admin_auction_remove", "api_admin_sold", "api_admin_bids",
   "api_admin_announce_add", "api_admin_announce_list",
   "api_admin_announce_delete", "api_admin_announce_clear", "api_admin_logs",
   "api_admin_battles", "serve_index", "serve_admin", "health",
   "enhanced_enhance", "wrapped_wear", "wrapped_unwear", "wrapped_add_exp"]

/-- The empty store. -/
def S0 : Store :=
  { users := fun _ => none, equips := fun _ _ => none, slots := fun _ => [],
    roles := fun _ _ => 0, inventory := fun _ _ => none, guards := fun _ => none,
    auctions := fun _ => none, openIndex := [], nextAuctionId := 0 }

/-- C4: for every bid on a listing, the bid is accepted only if the listing is
`open`, the bidder is not the seller, the amount is strictly greater than the
current price, and the bidder's gold is at least the amount; `current_price`
never decreases across a bid call, and no user's gold changes at bid time. -/
theorem bid_checks_and_monotonicity (s : Store) (username : String)
    (aid amt : Int) (a : Auction) (u : Account)
    (ha : s.auctions aid = some a) (hu : s.users username = some u) :
    ((api_auction_bid s username aid amt).1 = .ok →
      a.status = "open" ∧ a.seller ≠ username ∧ a.current_price < amt ∧
      amt ≤ u.gold ∧
      (api_auction_bid s username aid amt).2.auctions aid =
        some { a with current_price := amt, current_bidder := username }) ∧
    (∀ x, (api_auction_bid s username aid amt).2.users x = s.users x) ∧
    (∀ a2, (api_auction_bid s username aid amt).2.auctions aid = some a2 →
      a.current_price ≤ a2.current_price) := by
  simp only [api_auction_bid, ha, hu]
  split_ifs with h1 h2 h3 h4
  · refine ⟨fun h => by simp at h, fun x => rfl, fun a2 h' => ?_⟩
    rw [ha] at h'; injection h' with hh; rw [← hh]
  · refine ⟨fun h => by simp at h, fun x => rfl, fun a2 h' => ?_⟩
    rw [ha] at h'; injection h' with hh; rw [← hh]
  · refine ⟨fun h => by simp at h, fun x => rfl, fun a2 h' => ?_⟩
    rw [ha] at h'; injection h' with hh; rw [← hh]
  · refine ⟨fun h => by simp at h, fun x => rfl, fun a2 h' => ?_⟩
    rw [ha] at h'; injection h' with hh; rw [← hh]
  · refine ⟨fun _ => ⟨not_not.mp h1, h2, not_le.mp h3, not_lt.mp h4, ?_⟩,
      fun x => rfl, fun a2 h' => ?_⟩
    · simp [upd]
    · simp only [upd, if_pos rfl] at h'
      injection h' with hh
      rw [← hh]
      simpa using le_of_lt (not_le.mp h3)

/-- Concrete accounts and listing used by witnesses. -/
def accA : Account := { gold := 500, level := 1, exp := 0, banned := "0" }

def accB : Account := { gold := 100, level := 1, exp := 0, banned := "0" }

def aucBid : Auction :=
  { seller := "a", typ := "item", item_id := "potion_small", uid := "",
    qty := 2, start_price := 10, current_price := 30, current_bidder := "",
    buyout_price := none, status := "open" }

def S4 : Store :=
  { S0 with users := upd (upd S0.users "a" (some accA)) "b" (some accB),
            auctions := upd S0.auctions 1 (some aucBid), openIndex := [1] }

/-- Witness for C4: the account `b` (100 gold) bids 50 on listing 1
(current price 30); the theorem applies and the bid is in fact accepted. -/
theorem bid_checks_and_monotonicity_witness :
    (api_auction_bid S4 "b" 1 50).1 = .ok ∧
    (api_auction_bid S4 "b" 1 50).2.users "b" = S4.users "b" ∧
    ((api_auction_bid S4 "b" 1 50).2.auctions 1).map Auction.current_price = some 50 :=
  ⟨by decide,
   (bid_checks_and_monotonicity S4 "b" 1 50 aucBid accB (by decide) (by decide)).2.1 "b",
   by decide⟩

/-- C1: every buy-now that completes on an open listing settles at
`p = buyout price if set else current price`; the buyer's gold drops by
exactly `p`, the seller's rises by exactly `p`, and every other account's
gold is untouched — no gold is created or destroyed.  (`set_user_field` is
modelled from the spec, its definition being absent from the repository.) -/
theorem buyNow_conservation (s : Store) (buyerName : String) (aid : Int)
    (a : Auction) (bu se : Account)
    (ha : s.auctions aid = some a) (hbu : s.users buyerName = some bu)
    (hse : s.users a.seller = some se)
    (hok : (api_auction_buy .specModelled s buyerName aid).1 = .ok) :
    (api_auction_buy .specModelled s buyerName aid).2.users buyerName =
      some { bu with gold := bu.gold - priceOf a } ∧
    (api_auction_buy .specModelled s buyerName aid).2.users a.seller =
      some { se with gold := se.gold + priceOf a } ∧
    ∀ x, x ≠ buyerName → x ≠ a.seller →
      (api_auction_buy .specModelled s buyerName aid).2.users x = s.users x := by
  simp only [api_auction_buy, ha, hbu] at hok
  split_ifs at hok with h1 h2 h3 h4
  · have h2' : buyerName ≠ a.seller := fun hh => h2 hh.symm
    refine ⟨?_, ?_, fun x hx1 hx2 => ?_⟩
    · simp [api_auction_buy, ha, hbu, h1, h2, h2', h3, h4, sufApply,
        set_user_field_spec, setField, upd, hse, finishSold]
    · simp [api_auction_buy, ha, hbu, h1, h2, h3, h4, sufApply,
        set_user_field_spec, setField, upd, hse, finishSold]
    · simp [api_auction_buy, ha, hbu, h1, h2, h3, h4, sufApply,
        set_user_field_spec, setField, upd, hse, finishSold, hx1, hx2]
  · have h2' : buyerName ≠ a.seller := fun hh => h2 hh.symm
    rcases hE : s.equips a.seller a.uid with _ | eq
    · simp [sufApply, set_user_field_spec, hbu, setField, upd, h2, hse, hE] at hok
    · refine ⟨?_, ?_, fun x hx1 hx2 => ?_⟩
      · simp [api_auction_buy, ha, hbu, h1, h2, h2', h3, h4, sufApply,
          set_user_field_spec, setField, upd, hse, finishSold, hE]
      · simp [api_auction_buy, ha, hbu, h1, h2, h3, h4, sufApply,
          set_user_field_spec, setField, upd, hse, finishSold, hE]
      · simp [api_auction_buy, ha, hbu, h1, h2, h3, h4, sufApply,
          set_user_field_spec, setField, upd, hse, finishSold, hE, hx1, hx2]

/-- Listing sold by `a` with a buyout of 80, used by the C1 witness. -/
def aucBuy : Auction :=
  { seller := "a", typ := "item", item_id := "potion_small", uid := "",
    qty := 2, start_price := 10, current_price := 30, current_bidder := "",
    buyout_price := some 80, status := "open" }

def S1 : Store :=
  { S0 with users := upd (upd S0.users "a" (some accA)) "b" (some accB),
            auctions := upd S0.auctions 1 (some aucBuy), openIndex := [1] }

/-- Witness for C1: `b` (100 gold) buys listing 1 from `a` (500 gold) at the
buyout price 80; afterwards `b` holds 20 and `a` holds 580. -/
theorem buyNow_conservation_witness :
    (api_auction_buy .specModelled S1 "b" 1).1 = .ok ∧
    (api_auction_buy .specModelled S1 "b" 1).2.users "b" =
      some { accB with gold := accB.gold - priceOf aucBuy } ∧
    (api_auction_buy .specModelled S1 "b" 1).2.users "a" =
      some { accA with gold := accA.gold + priceOf aucBuy } :=
  ⟨by decide,
   (buyNow_conservation S1 "b" 1 aucBuy accB accA (by decide) (by decide)
      (by decide) (by decide)).1,
   (buyNow_conservation S1 "b" 1 aucBuy accB accA (by decide) (by decide)
      (by decide) (by decide)).2.1⟩

/-- C5: a shop purchase or buy-now settlement whose paying account holds less
gold than the price is rejected with the store completely unchanged (the
balance is not clamped), and a settlement that does go through leaves the
payer with exactly `gold - cost ≥ 0`: the payer's balance never becomes
negative.  (`set_user_field` modelled from the spec.) -/
theorem debit_insufficient_rejected :
    (∀ (s : Store) (u item : String) (qty price : Int) (player : Account),
      SHOP_ITEMS.lookup item = some price → s.users u = some player →
      player.gold < price * qty →
      api_shop_buy .specModelled s u item qty = (.httpErr 400 "金幣不足", s)) ∧
    (∀ (s : Store) (u item : String) (qty price : Int) (player : Account),
      SHOP_ITEMS.lookup item = some price → s.users u = some player →
      (api_shop_buy .specModelled s u item qty).1 = .ok →
      (api_shop_buy .specModelled s u item qty).2.users u =
        some { player with gold := player.gold - price * qty } ∧
      0 ≤ player.gold - price * qty) ∧
    (∀ (s : Store) (buyer : String) (aid : Int) (a : Auction) (bu : Account),
      s.auctions aid = some a → s.users buyer = some bu →
      bu.gold < priceOf a →
      (api_auction_buy .specModelled s buyer aid).2 = s ∧
      (api_auction_buy .specModelled s buyer aid).1 ≠ .ok) ∧
    (∀ (s : Store) (buyer : String) (aid : Int) (a : Auction) (bu : Account),
      s.auctions aid = some a → s.users buyer = some bu →
      (api_auction_buy .specModelled s buyer aid).1 = .ok →
      ((api_auction_buy .specModelled s buyer aid).2.users buyer).map Account.gold =
        some (bu.gold - priceOf a) ∧
      0 ≤ bu.gold - priceOf a) := by
  refine ⟨?_, ?_, ?_, ?_⟩
  · intro s u item qty price player hl hu hlt
    simp only [api_shop_buy, hl, hu]
    rw [if_pos hlt]
  · intro s u item qty price player hl hu hok
    simp only [api_shop_buy, hl, hu] at hok ⊢
    split_ifs at hok ⊢ with h
    simp only [sufApply, set_user_field_spec, hu, setField]
    exact ⟨by simp [upd], by omega⟩
  · intro s buyer aid a bu ha hbu hlt
    simp only [api_auction_buy, ha, hbu]
    split_ifs with h1 h2
    · exact ⟨rfl, by simp⟩
    · exact ⟨rfl, by simp⟩
    · exact ⟨rfl, by simp⟩
  · intro s buyer aid a bu ha hbu hok
    simp only [api_auction_buy, ha, hbu] at hok ⊢
    split_ifs at hok ⊢ with h1 h2 h3
    · have h2' : buyer ≠ a.seller := fun hh => h2 hh.symm
      rcases hse : s.users a.seller with _ | se
      · simp [sufApply, set_user_field_spec, hbu, setField, upd, h2, hse] at hok
      · constructor
        · simp [sufApply, set_user_field_spec, hbu, setField, upd, h2, h2', hse,
            finishSold]
        · omega
    · have h2' : buyer ≠ a.seller := fun hh => h2 hh.symm
      rcases hse : s.users a.seller with _ | se
      · simp [sufApply, set_user_field_spec, hbu, setField, upd, h2, hse] at hok
      · rcases hE : s.equips a.seller a.uid with _ | eq
        · simp [sufApply, set_user_field_spec, hbu, setField, upd, h2, hse, hE] at hok
        · constructor
          · simp [sufApply, set_user_field_spec, hbu, setField, upd, h2, h2', hse,
              finishSold, hE]
          · omega

/-- Witness for C5: `b` (100 gold) cannot afford 6 potions (cost 120) — the
purchase is rejected and the store unchanged; buying 2 (cost 40) succeeds
and leaves a non-negative 60. -/
theorem debit_insufficient_rejected_witness :
    api_shop_buy .specModelled S4 "b" "potion_small" 6 = (.httpErr 400 "金幣不足", S4) ∧
    (api_shop_buy .specModelled S4 "b" "potion_small" 2).2.users "b" =
      some { accB with gold := 60 } :=
  ⟨debit_insufficient_rejected.1 S4 "b" "potion_small" 6 20 accB (by decide)
     (by decide) (by decide),
   (debit_insufficient_rejected.2.1 S4 "b" "potion_small" 2 20 accB (by decide)
     (by decide) (by decide)).1⟩

/-- Open listing by `a` with no buyout price, used for C7. -/
def aucNoBuyout : Auction :=
  { seller := "a", typ := "item", item_id := "potion_small", uid := "",
    qty := 1, start_price := 10, current_price := 30, current_bidder := "",
    buyout_price := none, status := "open" }

def S7 : Store :=
  { S0 with users := upd (upd S0.users "a" (some accA)) "b" (some accB),
            auctions := upd S0.auctions 1 (some aucNoBuyout), openIndex := [1] }

/-- Counterexample to C7: listing 1 is open and has no buyout price, yet the
buy-now call by `b` is not rejected — it completes, charging the current
price 30 (`b` drops from 100 to 70 gold and the listing is sold). -/
theorem buyNow_no_buyout_not_rejected :
    (S7.auctions 1).map Auction.buyout_price = some none ∧
    (S7.auctions 1).map Auction.status = some "open" ∧
    (api_auction_buy .specModelled S7 "b" 1).1 = .ok ∧
    ((api_auction_buy .specModelled S7 "b" 1).2.users "b").map Account.gold = some 70 ∧
    ((api_auction_buy .specModelled S7 "b" 1).2.auctions 1).map Auction.status =
      some "sold" := by
  decide

/-- C7 as amended: buy-now on an open listing is rejected when the buyer is
the seller or the listing is not open, but a missing buyout price is not a
rejection reason: the settlement simply proceeds at `current_price`.
(`set_user_field` modelled from the spec.) -/
theorem buyNow_rejections_and_no_buyout_settlement :
    (∀ (s : Store) (aid : Int) (a : Auction),
      s.auctions aid = some a → a.status = "open" →
      api_auction_buy .specModelled s a.seller aid =
        (.httpErr 400 "不能購買自己的拍賣", s)) ∧
    (∀ (s : Store) (buyer : String) (aid : Int) (a : Auction),
      s.auctions aid = some a → a.status ≠ "open" →
      api_auction_buy .specModelled s buyer aid = (.httpErr 400 "拍賣已結束", s)) ∧
    (∀ (s : Store) (buyer : String) (aid : Int) (a : Auction) (bu se : Account),
      s.auctions aid = some a → a.buyout_price = none → a.status = "open" →
      a.seller ≠ buyer → a.typ = "item" → s.users buyer = some bu →
      s.users a.seller = some se → ¬ bu.gold < a.current_price →
      (api_auction_buy .specModelled s buyer aid).1 = .ok ∧
      ((api_auction_buy .specModelled s buyer aid).2.users buyer).map Account.gold =
        some (bu.gold - a.current_price)) := by
  refine ⟨?_, ?_, ?_⟩
  · intro s aid a ha hopen
    simp [api_auction_buy, ha, hopen]
  · intro s buyer aid a ha hnot
    simp [api_auction_buy, ha, hnot]
  · intro s buyer aid a bu se ha hbo hopen hne htyp hbu hse hge
    have hp : priceOf a = a.current_price := by simp [priceOf, hbo]
    have hne' : buyer ≠ a.seller := fun hh => hne hh.symm
    simp [api_auction_buy, ha, hopen, hne, htyp, hbu, hse, hp, hge, sufApply,
      set_user_field_spec, setField, upd, hne', finishSold]

/-- Witness for C7's amended theorem: the rejection and settlement facts at
the concrete store `S7`. -/
theorem buyNow_rejections_witness :
    api_auction_buy .specModelled S7 "a" 1 = (.httpErr 400 "不能購買自己的拍賣", S7) ∧
    (api_auction_buy .specModelled S7 "b" 1).1 = .ok :=
  ⟨buyNow_rejections_and_no_buyout_settlement.1 S7 1 aucNoBuyout (by decide)
     (by decide),
   (buyNow_rejections_and_no_buyout_settlement.2.2 S7 "b" 1 aucNoBuyout accB accA
     (by decide) (by decide) (by decide) (by decide) (by decide) (by decide)
     (by decide) (by decide)).1⟩

/-- Open listing by `a` carrying a recorded bid from `bob`, used for C6. -/
def aucBidded : Auction :=
  { seller := "a", typ := "item", item_id := "potion_small", uid := "",
    qty := 3, start_price := 10, current_price := 50, current_bidder := "bob",
    buyout_price := none, status := "open" }

def S6 : Store :=
  { S0 with auctions := upd S0.auctions 1 (some aucBidded), openIndex := [1] }

/-- Counterexample to C6: listing 1 is open with `current_bidder = "bob"`
set, yet the seller's cancel call succeeds (no `HasBids` rejection exists):
the listing is deleted and the escrowed stack returned. -/
theorem cancel_with_bidder_succeeds :
    (S6.auctions 1).map Auction.current_bidder = some "bob" ∧
    (S6.auctions 1).map Auction.status = some "open" ∧
    (api_auction_cancel S6 "a" false 1).1 = .ok ∧
    (api_auction_cancel S6 "a" false 1).2.auctions 1 = none ∧
    (api_auction_cancel S6 "a" false 1).2.inventory "a" "potion_small" = some 3 := by
  decide

/-- C6 as amended: a cancel call on an existing listing succeeds exactly when
the caller is the seller or holds a root token and the listing is still
open — whether or not `current_bidder` is set; on success the auction hash
is deleted, the listing leaves the open index, a stack listing's quantity is
returned to the seller, and no account's gold changes. -/
theorem cancel_characterization (s : Store) (username : String) (is_root : Bool)
    (aid : Int) (a : Auction) (ha : s.auctions aid = some a) :
    ((api_auction_cancel s username is_root aid).1 = .ok ↔
      (username = a.seller ∨ is_root = true) ∧ a.status = "open") ∧
    ((api_auction_cancel s username is_root aid).1 = .ok →
      (api_auction_cancel s username is_root aid).2.auctions aid = none ∧
      ¬ aid ∈ (api_auction_cancel s username is_root aid).2.openIndex ∧
      (a.typ = "item" →
        (api_auction_cancel s username is_root aid).2.inventory a.seller a.item_id =
          some ((s.inventory a.seller a.item_id).getD 0 + a.qty))) ∧
    (∀ x, (api_auction_cancel s username is_root aid).2.users x = s.users x) := by
  simp only [api_auction_cancel, ha]
  split_ifs with h1 h2 h3
  · refine ⟨?_, fun h => by simp at h, fun x => rfl⟩
    constructor
    · intro h; simp at h
    · rintro ⟨hu | hu, _⟩
      · exact absurd hu h1.1
      · exact absurd hu h1.2
  · refine ⟨?_, fun h => by simp at h, fun x => rfl⟩
    constructor
    · intro h; simp at h
    · rintro ⟨_, hopen⟩
      exact absurd hopen h2
  · push_neg at h1
    refine ⟨⟨fun _ => ⟨?_, not_not.mp h2⟩, fun _ => rfl⟩,
      fun _ => ⟨by simp [upd], by simp, fun _ => ?_⟩, fun x => rfl⟩
    · by_cases hu : username = a.seller
      · exact Or.inl hu
      · exact Or.inr (h1 hu)
    · simp [hincr, upd2, upd]
  · push_neg at h1
    refine ⟨⟨fun _ => ⟨?_, not_not.mp h2⟩, fun _ => rfl⟩,
      fun _ => ⟨by simp [upd], by simp, fun htyp => absurd htyp h3⟩, fun x => rfl⟩
    by_cases hu : username = a.seller
    · exact Or.inl hu
    · exact Or.inr (h1 hu)

/-- Witness for C6's amended theorem: at the concrete bidded store `S6`, the
seller's cancel succeeds and a stranger's cancel does not. -/
theorem cancel_characterization_witness :
    ((api_auction_cancel S6 "a" false 1).1 = .ok ↔
      (("a" = aucBidded.seller ∨ false = true) ∧ aucBidded.status = "open")) ∧
    ((api_auction_cancel S6 "x" false 1).1 = .ok ↔
      (("x" = aucBidded.seller ∨ false = true) ∧ aucBidded.status = "open")) :=
  ⟨(cancel_characterization S6 "a" false 1 aucBidded (by decide)).1,
   (cancel_characterization S6 "x" false 1 aucBidded (by decide)).1⟩

/-- Equipment instance of `a`, locked because it is listed, used for C3. -/
def eqListed : Equipment :=
  { enhance := 0, atk := 10, def_ := 10, hp := 10, spd := 10, crit := 10,
    crit_dmg := 10, locked := true }

/-- Open equipment listing referencing `e1`, used for C3. -/
def aucEquip : Auction :=
  { seller := "a", typ := "equip", item_id := "", uid := "e1", qty := 1,
    start_price := 100, current_price := 100, current_bidder := "",
    buyout_price := none, status := "open" }

def S3 : Store :=
  { S0 with equips := upd2 S0.equips "a" "e1" (some eqListed),
            auctions := upd S0.auctions 1 (some aucEquip), openIndex := [1] }

/-- Counterexample to C3: instance `e1` is locked and referenced by the open
listing 1, yet the wear call succeeds and puts `e1` into the weapon slot —
the instance is now simultaneously listed and equipped, so lock coherence
does not hold at every observable point. -/
theorem wear_ignores_lock :
    (S3.equips "a" "e1").map Equipment.locked = some true ∧
    (S3.auctions 1).map Auction.uid = some "e1" ∧
    (S3.auctions 1).map Auction.status = some "open" ∧
    (api_equip_wear S3 "a" "e1" "weapon").1 = .ok ∧
    (api_equip_wear S3 "a" "e1" "weapon").2.slots "a" = [("weapon", "e1")] ∧
    ((api_equip_wear S3 "a" "e1" "weapon").2.auctions 1).map Auction.status =
      some "open" := by
  decide

/-- C3 as amended: one direction of lock coherence is enforced and the other
is not.  Listing an instance that occupies an equip slot fails with the
store unchanged; but `api_equip_wear` performs no lock or listing check, so
equipping an instance referenced by an open listing succeeds. -/
theorem lock_coherence_one_sided :
    (∀ (s : Store) (u item_id uid : String) (qty sp : Int) (bp : Option Int)
       (eq : Equipment),
      s.equips u uid = some eq → ¬ sp ≤ 0 →
      uid ∈ (s.slots u).map Prod.snd →
      api_auction_create s u "equip" item_id uid qty sp bp =
        (.httpErr 400 "裝備穿戴中，不能上架", s)) ∧
    (∀ (s : Store) (u uid slot : String) (eq : Equipment),
      slot ∈ EQUIP_SLOTS → s.equips u uid = some eq →
      (api_equip_wear s u uid slot).1 = .ok ∧
      (api_equip_wear s u uid slot).2.equips u uid = some eq) := by
  constructor
  · intro s u item_id uid qty sp bp eq heq hsp hworn
    simp [api_auction_create, hsp, heq, hworn]
  · intro s u uid slot eq hslot heq
    simp [api_equip_wear, hslot, heq]

/-- Witness for C3's amended theorem at the concrete store `S3`: with `e1`
placed in the weapon slot, listing it again is refused; and the bare wear
call on the listed `e1` succeeds. -/
theorem lock_coherence_one_sided_witness :
    (api_auction_create
        { S3 with slots := upd S3.slots "a" [("weapon", "e1")] }
        "a" "equip" "" "e1" 1 100 none =
      (.httpErr 400 "裝備穿戴中，不能上架",
        { S3 with slots := upd S3.slots "a" [("weapon", "e1")] })) ∧
    (api_equip_wear S3 "a" "e1" "weapon").1 = .ok :=
  ⟨lock_coherence_one_sided.1
     { S3 with slots := upd S3.slots "a" [("weapon", "e1")] }
     "a" "" "e1" 1 100 none eqListed (by decide) (by decide) (by decide),
   (lock_coherence_one_sided.2 S3 "a" "e1" "weapon" eqListed (by decide)
     (by decide)).1⟩

/-- C9: an unprotected failed enhancement attempt is resolved purely by the
pre-attempt level — 0–5 keeps the level, 6–10 drops 1 (floored at 0), 11–15
drops 2 (floored at 0), 16–18 resets to 0, and at 19 the instance is
destroyed with a response distinct from ordinary failure; any attempt at
level ≥ 20 is rejected with no state change. -/
theorem enhance_fail_outcomes (s : Store) (u uid : String) (eq : Equipment)
    (heq : s.equips u uid = some eq) (h0 : 0 ≤ eq.enhance) :
    (20 ≤ eq.enhance → ∀ (ug succ : Bool) (rng : List ℚ),
      api_equip_enhance s u uid ug succ rng = (.atMax, s)) ∧
    (∀ rng, eq.enhance ≤ 5 →
      api_equip_enhance s u uid false false rng = (.fail eq.enhance, s)) ∧
    (∀ rng, 6 ≤ eq.enhance → eq.enhance ≤ 10 →
      (api_equip_enhance s u uid false false rng).1 = .fail (max 0 (eq.enhance - 1)) ∧
      (api_equip_enhance s u uid false false rng).2.equips u uid =
        some { eq with enhance := max 0 (eq.enhance - 1) }) ∧
    (∀ rng, 11 ≤ eq.enhance → eq.enhance ≤ 15 →
      (api_equip_enhance s u uid false false rng).1 = .fail (max 0 (eq.enhance - 2)) ∧
      (api_equip_enhance s u uid false false rng).2.equips u uid =
        some { eq with enhance := max 0 (eq.enhance - 2) }) ∧
    (∀ rng, 16 ≤ eq.enhance → eq.enhance ≤ 18 →
      (api_equip_enhance s u uid false false rng).1 = .fail 0 ∧
      (api_equip_enhance s u uid false false rng).2.equips u uid =
        some { eq with enhance := 0 }) ∧
    (∀ rng, eq.enhance = 19 →
      (api_equip_enhance s u uid false false rng).1 = .explode ∧
      (api_equip_enhance s u uid false false rng).2.equips u uid = none) := by
  refine ⟨?_, ?_, ?_, ?_, ?_, ?_⟩
  · intro h20 ug succ rng
    simp [api_equip_enhance, heq, h20]
  · intro rng h5
    have h20 : ¬ 20 ≤ eq.enhance := by omega
    simp [api_equip_enhance, heq, h20, enhance_fail_result, h5]
  · intro rng h6 h10
    have h20 : ¬ 20 ≤ eq.enhance := by omega
    have n5 : ¬ eq.enhance ≤ 5 := by omega
    simp [api_equip_enhance, heq, h20, enhance_fail_result, n5, h10, upd2,
      sub_eq_add_neg]
  · intro rng h11 h15
    have h20 : ¬ 20 ≤ eq.enhance := by omega
    have n5 : ¬ eq.enhance ≤ 5 := by omega
    have n10 : ¬ eq.enhance ≤ 10 := by omega
    simp [api_equip_enhance, heq, h20, enhance_fail_result, n5, n10, h15, upd2,
      sub_eq_add_neg]
  · intro rng h16 h18
    have h20 : ¬ 20 ≤ eq.enhance := by omega
    have n5 : ¬ eq.enhance ≤ 5 := by omega
    have n10 : ¬ eq.enhance ≤ 10 := by omega
    have n15 : ¬ eq.enhance ≤ 15 := by omega
    simp [api_equip_enhance, heq, h20, enhance_fail_result, n5, n10, n15, h18, upd2]
  · intro rng h19
    have h20 : ¬ 20 ≤ eq.enhance := by omega
    have n5 : ¬ eq.enhance ≤ 5 := by omega
    have n10 : ¬ eq.enhance ≤ 10 := by omega
    have n15 : ¬ eq.enhance ≤ 15 := by omega
    have n18 : ¬ eq.enhance ≤ 18 := by omega
    simp [api_equip_enhance, heq, h20, enhance_fail_result, n5, n10, n15, n18, upd2]

/-- Instance at enhancement level 19, used by the C9 witness. -/
def eqL19 : Equipment :=
  { enhance := 19, atk := 10, def_ := 10, hp := 10, spd := 10, crit := 10,
    crit_dmg := 10, locked := false }

def S9 : Store := { S0 with equips := upd2 S0.equips "a" "e" (some eqL19) }

/-- Witness for C9: at level 19 an unprotected failure explodes — the record
is deleted and the response is the distinct explosion outcome. -/
theorem enhance_fail_outcomes_witness :
    (api_equip_enhance S9 "a" "e" false false []).1 = .explode ∧
    (api_equip_enhance S9 "a" "e" false false []).2.equips "a" "e" = none :=
  (enhance_fail_outcomes S9 "a" "e" eqL19 (by decide) (by decide)).2.2.2.2.2
    [] (by decide)

/-- Instance at level 5 with uniform attributes 100, used for C8. -/
def eqMid : Equipment :=
  { enhance := 5, atk := 100, def_ := 100, hp := 100, spd := 100, crit := 100,
    crit_dmg := 100, locked := false }

def S8 : Store := { S0 with equips := upd2 S0.equips "a" "e" (some eqMid) }

/-- A growth-draw stream whose first value differs from the later ones; all
values lie in [1.05, 1.12]. -/
def rng8 : List ℚ := [21/20, 28/25, 28/25, 28/25, 28/25, 28/25]

/-- Counterexample to C8: on a successful attempt the handler draws a single
growth factor and applies it to all six attributes, so with the draw stream
`rng8` the stored `def` becomes `int(100 * 1.05) = 105`, whereas the
claim's per-attribute independent draws would give `int(100 * 1.12) = 112`. -/
theorem enhance_success_single_draw :
    (∀ g ∈ rng8, (21/20 : ℚ) ≤ g ∧ g ≤ (28/25 : ℚ)) ∧
    ((api_equip_enhance S8 "a" "e" false true rng8).2.equips "a" "e").map
        Equipment.def_ = some 105 ∧
    (enhanceSuccessSpec eqMid rng8).def_ = 112 ∧
    ((api_equip_enhance S8 "a" "e" false true rng8).2.equips "a" "e").map
        Equipment.def_ ≠ some (enhanceSuccessSpec eqMid rng8).def_ := by
  have hrange : ∀ g ∈ rng8, (21/20 : ℚ) ≤ g ∧ g ≤ (28/25 : ℚ) := by
    intro g hg
    simp only [rng8, List.mem_cons, List.not_mem_nil, or_false] at hg
    rcases hg with h | h | h | h | h | h <;> subst h <;> constructor <;> norm_num
  have hcode : ((api_equip_enhance S8 "a" "e" false true rng8).2.equips "a" "e").map
      Equipment.def_ = some 105 := by
    simp [api_equip_enhance, S8, S0, upd2, eqMid, rng8, truncMul, pyInt]
    norm_num
  have hspec : (enhanceSuccessSpec eqMid rng8).def_ = 112 := by
    simp [enhanceSuccessSpec, rng8, eqMid, truncMul, pyInt]
    norm_num
  refine ⟨hrange, hcode, hspec, ?_⟩
  rw [hcode, hspec]
  decide

/-- C8 as amended: a successful enhancement raises the level by exactly 1 and
multiplies all six attributes by the *same* single growth factor drawn in
[1.05, 1.12] (the head of the stream), each product truncated to an
integer. -/
theorem enhance_success_shared_growth (s : Store) (u uid : String) (ug : Bool)
    (eq : Equipment) (g : ℚ) (rest : List ℚ)
    (heq : s.equips u uid = some eq) (hlt : eq.enhance < 20)
    (hg1 : (21/20 : ℚ) ≤ g) (hg2 : g ≤ (28/25 : ℚ)) :
    (api_equip_enhance s u uid ug true (g :: rest)).1 = .success (eq.enhance + 1) ∧
    (api_equip_enhance s u uid ug true (g :: rest)).2.equips u uid =
      some { eq with
        enhance := eq.enhance + 1,
        atk := truncMul eq.atk g, def_ := truncMul eq.def_ g,
        hp := truncMul eq.hp g, spd := truncMul eq.spd g,
        crit := truncMul eq.crit g, crit_dmg := truncMul eq.crit_dmg g } := by
  have h20 : ¬ 20 ≤ eq.enhance := by omega
  by_cases hga : (ug = true) ∧ ((s.guards u).isSome = true) ∧ 16 ≤ eq.enhance
  · simp [api_equip_enhance, heq, h20, hga, upd2]
  · simp [api_equip_enhance, heq, h20, hga, upd2]

/-- Witness for C8's amended theorem: the success at `S8` with head draw 1.05
applies that one factor to every attribute and bumps the level by one. -/
theorem enhance_success_shared_growth_witness :
    (api_equip_enhance S8 "a" "e" false true
        ((21/20 : ℚ) :: [28/25, 28/25, 28/25, 28/25, 28/25])).1 =
      .success (eqMid.enhance + 1) ∧
    (api_equip_enhance S8 "a" "e" false true
        ((21/20 : ℚ) :: [28/25, 28/25, 28/25, 28/25, 28/25])).2.equips "a" "e" =
      some { eqMid with
        enhance := eqMid.enhance + 1,
        atk := truncMul eqMid.atk (21/20), def_ := truncMul eqMid.def_ (21/20),
        hp := truncMul eqMid.hp (21/20), spd := truncMul eqMid.spd (21/20),
        crit := truncMul eqMid.crit (21/20),
        crit_dmg := truncMul eqMid.crit_dmg (21/20) } :=
  enhance_success_shared_growth S8 "a" "e" false eqMid (21/20)
    [28/25, 28/25, 28/25, 28/25, 28/25] (by decide) (by decide)
    (by norm_num) (by norm_num)

/-- Instance at enhancement level 16, used for C10. -/
def eqL16 : Equipment :=
  { enhance := 16, atk := 50, def_ := 50, hp := 50, spd := 50, crit := 50,
    crit_dmg := 50, locked := false }

def SG : Store :=
  { S0 with equips := upd2 S0.equips "a" "e" (some eqL16),
            guards := upd S0.guards "a" (some 1) }

/-- Counterexample to C10: `a` holds one protection token and requests it on
a level-16 attempt that then *succeeds* — by the claim the token count must
be unchanged, but the handler decrements the counter before the outcome is
drawn, leaving 0 tokens. -/
theorem guard_consumed_on_success :
    SG.guards "a" = some 1 ∧
    (api_equip_enhance SG "a" "e" true true [(11/10 : ℚ)]).1 = .success 17 ∧
    (api_equip_enhance SG "a" "e" true true [(11/10 : ℚ)]).2.guards "a" = some 0 := by
  refine ⟨by decide, ?_, ?_⟩
  · simp [api_equip_enhance, SG, S0, upd2, upd, eqL16, truncMul, pyInt]
  · simp [api_equip_enhance, SG, S0, upd2, upd, eqL16]

/-- C10 as amended: one token is consumed exactly when the caller requested
it, the guard counter key exists (whatever its value — the handler tests key
presence, not a positive count) and the pre-attempt level is at least 16,
regardless of the outcome of the attempt — consumption happens before the
draw, so a successful attempt also spends the token; when such a protected
attempt fails, the would-be reset/explosion is downgraded to a decrease of
exactly 1 level (floored at 0). -/
theorem guard_consumption_characterization (s : Store) (u uid : String)
    (ug succ : Bool) (rng : List ℚ) (eq : Equipment)
    (heq : s.equips u uid = some eq) (hlt : eq.enhance < 20) :
    ((api_equip_enhance s u uid ug succ rng).2.guards u =
      if ug = true ∧ (s.guards u).isSome = true ∧ 16 ≤ eq.enhance
      then some ((s.guards u).getD 0 - 1) else s.guards u) ∧
    (succ = false → ug = true → (s.guards u).isSome = true → 16 ≤ eq.enhance →
      (api_equip_enhance s u uid ug succ rng).1 = .fail (max 0 (eq.enhance - 1)) ∧
      (api_equip_enhance s u uid ug succ rng).2.equips u uid =
        some { eq with enhance := max 0 (eq.enhance - 1) }) := by
  have h20 : ¬ 20 ≤ eq.enhance := by omega
  constructor
  · simp only [api_equip_enhance, heq]
    split_ifs <;> simp_all [upd]
  · intro hsucc hug hkey h16
    subst hsucc
    have hga : (ug = true) ∧ ((s.guards u).isSome = true) ∧ 16 ≤ eq.enhance :=
      ⟨hug, hkey, h16⟩
    have n5 : ¬ eq.enhance ≤ 5 := by omega
    have n10 : ¬ eq.enhance ≤ 10 := by omega
    have n15 : ¬ eq.enhance ≤ 15 := by omega
    rcases le_or_lt eq.enhance 18 with h18 | h19
    · simp [api_equip_enhance, heq, h20, hga, enhance_fail_result, n5, n10, n15,
        h18, upd2, sub_eq_add_neg]
    · have n18 : ¬ eq.enhance ≤ 18 := by omega
      simp [api_equip_enhance, heq, h20, hga, enhance_fail_result, n5, n10, n15,
        n18, upd2, sub_eq_add_neg]

/-- Witness for C10's amended theorem: at the concrete store `SG`, a
requested, key-present, level-16 failing attempt consumes the token and is
downgraded to a one-level drop. -/
theorem guard_consumption_characterization_witness :
    ((api_equip_enhance SG "a" "e" true false []).2.guards "a" =
      if (true = true) ∧ ((SG.guards "a").isSome = true) ∧ 16 ≤ eqL16.enhance
      then some ((SG.guards "a").getD 0 - 1) else SG.guards "a") ∧
    (api_equip_enhance SG "a" "e" true false []).1 =
      .fail (max 0 (eqL16.enhance - 1)) :=
  ⟨(guard_consumption_characterization SG "a" "e" true false [] eqL16
      (by decide) (by decide)).1,
   ((guard_consumption_characterization SG "a" "e" true false [] eqL16
      (by decide) (by decide)).2 rfl rfl (by decide) (by decide)).1⟩

/-- C2: `set_user_field` — the only routine through which gold / exp /
level / banned are ever mutated — is defined nowhere in `server.py`, so
under the source's own semantics every request that reaches such a write
(shop purchase, buy-now settlement, experience gain — also hit first by the
PvP reward path — admin gold edit, ban, unban) dies with an uncaught
`NameError` at that point, and no account field is ever written: the user
table after the call is exactly the user table before it. -/
theorem set_user_field_undefined_nameError :
    ("set_user_field" ∉ serverDefinedFunctions) ∧
    (∀ (s : Store) (u item : String) (qty price : Int) (player : Account),
      SHOP_ITEMS.lookup item = some price → s.users u = some player →
      ¬ player.gold < price * qty →
      api_shop_buy .srcUndefined s u item qty = (.nameError, s)) ∧
    (∀ (s : Store) (buyer : String) (aid : Int) (a : Auction) (bu : Account),
      s.auctions aid = some a → a.status = "open" → ¬ a.seller = buyer →
      s.users buyer = some bu → ¬ bu.gold < priceOf a →
      api_auction_buy .srcUndefined s buyer aid = (.nameError, s)) ∧
    (∀ (s : Store) (u : String) (g : Int) (rng : List (Int × Int × Int × Int))
       (user : Account), s.users u = some user →
      (add_exp .srcUndefined s u g rng).1 = .nameError) ∧
    (∀ (s : Store) (u : String) (g : Int) (rng : List (Int × Int × Int × Int)),
      (add_exp .srcUndefined s u g rng).2.users = s.users) ∧
    (∀ (s : Store) (target : String) (amt : Int) (user : Account),
      s.users target = some user →
      api_admin_gold .srcUndefined s true target amt = (.nameError, s)) ∧
    (∀ (s : Store) (target : String),
      api_admin_ban .srcUndefined s true target = (.nameError, s)) ∧
    (∀ (s : Store) (target : String),
      api_admin_unban .srcUndefined s true target = (.nameError, s)) := by
  refine ⟨by decide, ?_, ?_, ?_, ?_, ?_, ?_, ?_⟩
  · intro s u item qty price player hl hu hge
    simp [api_shop_buy, hl, hu, hge, sufApply]
  · intro s buyer aid a bu ha hopen hne hbu hge
    simp [api_auction_buy, ha, hopen, hne, hbu, hge, sufApply]
  · intro s u g rng user hu
    simp [add_exp, hu, sufApply]
  · intro s u g rng
    rcases hu : s.users u with _ | user
    · simp [add_exp, hu]
    · simp [add_exp, hu, sufApply]
  · intro s target amt user hu
    simp [api_admin_gold, hu, sufApply]
  · intro s target
    simp [api_admin_ban, sufApply]
  · intro s target
    simp [api_admin_unban, sufApply]

/-- Witness for C2: all six embedded write paths at concrete stores end in
`NameError` with the user table untouched. -/
theorem set_user_field_undefined_nameError_witness :
    api_shop_buy .srcUndefined S4 "b" "potion_small" 2 = (.nameError, S4) ∧
    api_auction_buy .srcUndefined S1 "b" 1 = (.nameError, S1) ∧
    (add_exp .srcUndefined S4 "b" 10 []).1 = .nameError ∧
    (add_exp .srcUndefined S4 "b" 10 []).2.users = S4.users ∧
    api_admin_gold .srcUndefined S4 true "b" 5 = (.nameError, S4) ∧
    api_admin_ban .srcUndefined S4 true "b" = (.nameError, S4) ∧
    api_admin_unban .srcUndefined S4 true "b" = (.nameError, S4) :=
  ⟨set_user_field_undefined_nameError.2.1 S4 "b" "potion_small" 2 20 accB
     (by decide) (by decide) (by decide),
   set_user_field_undefined_nameError.2.2.1 S1 "b" 1 aucBuy accB
     (by decide) (by decide) (by decide) (by decide) (by decide),
   set_user_field_undefined_nameError.2.2.2.1 S4 "b" 10 [] accB (by decide),
   set_user_field_undefined_nameError.2.2.2.2.1 S4 "b" 10 [],
   set_user_field_undefined_nameError.2.2.2.2.2.1 S4 "b" 5 accB (by decide),
   set_user_field_undefined_nameError.2.2.2.2.2.2.1 S4 "b",
   set_user_field_undefined_nameError.2.2.2.2.2.2.2 S4 "b"⟩

end Server
